import Mathlib

/-!
Shallow embedding of `fission/portforward/portforward.go`.

The file models the port-forward session component: `findFreePort`,
the two TCP-polling readiness loops inside `Setup`, and the
pod/service resolution performed by `runPortForward`.  External
collaborators (the Kubernetes client, the OS socket layer, the SPDY
stream transport) are modelled as oracles: lists of cluster objects
with a selector-matching predicate, and boolean connect oracles
indexed by attempt number.  All `log.Fatal` calls are modelled as an
explicit `Outcome.fatal` result carrying the exact message the code
formats.
-/

namespace PortForward

/-- Pod object as read by the code: only `Name` and `Namespace` are used. -/
structure Pod where
  Name : String
  Namespace : String
deriving DecidableEq, Repr

/-- Service port as read by the code: `servicePort.TargetPort.String()` is the
only field consulted, modelled directly as its string rendering. -/
structure ServicePort where
  TargetPort : String
deriving DecidableEq, Repr

/-- Service object as read by the code: its namespace (the namespace it is
listed from) and `service.Spec.Ports`. -/
structure Service where
  Namespace : String
  Ports : List ServicePort
deriving DecidableEq, Repr

/-- Target resolved by `runPortForward`: the single pod's name and
namespace, and the target port taken from the service. -/
structure ResolvedTarget where
  podName : String
  podNameSpace : String
  targetPort : String
deriving DecidableEq, Repr

/-- Result of code that may call `log.Fatal(msg)`: `fatal msg` models process
termination with the formatted message, before any later effect happens. -/
inductive Outcome (α : Type) where
  | fatal : String → Outcome α
  | ok : α → Outcome α
deriving DecidableEq, Repr

/-- Oracle for the cluster-facing calls of `runPortForward`.  `pods` and
`services` are the cluster's objects; `selPod` and `selSvc` are the matching
semantics of the one `labelSelector` string against pod and service labels
(label-selector parsing lives in the external Kubernetes client).  The
`...Err` fields say whether the corresponding external call fails. -/
structure ClusterAPI where
  pods : List Pod
  services : List Service
  selPod : Pod → Bool
  selSvc : Service → Bool
  buildConfigErr : Option String
  newClientErr : Option String
  podListErr : Option String
  svcListErr : Option String

/-- Value of `meta_v1.NamespaceAll` in the Kubernetes API: the empty string,
which makes a list call span all namespaces. -/
def namespaceAll : String := ""

/-- Namespace actually used for the pod list call, from the Go lines
`if len(ns) == 0 { ns = meta_v1.NamespaceAll }`. -/
def effNs (ns0 : String) : String :=
  if ns0.length = 0 then namespaceAll else ns0

/-- Model of namespace scoping in the external Kubernetes list API: listing in
`NamespaceAll` (the empty string) returns objects of every namespace,
otherwise only objects of the given namespace. -/
def inNamespace (ns itemNs : String) : Bool :=
  ns == namespaceAll || itemNs == ns

/-- Model of `clientset.CoreV1().Pods(ns).List(ListOptions{LabelSelector})`:
the cluster's pods restricted to the namespace scope and the selector. -/
def listPods (api : ClusterAPI) (ns : String) : List Pod :=
  api.pods.filter fun p => inNamespace ns p.Namespace && api.selPod p

/-- Model of `clientset.CoreV1().Services(ns).List(ListOptions{LabelSelector})`
with the same `labelSelector`. -/
def listServices (api : ClusterAPI) (ns : String) : List Service :=
  api.services.filter fun s => inNamespace ns s.Namespace && api.selSvc s

/-- Namespace list built by the ambiguity branch of `runPortForward`: one
entry appended per pod of the list, in list order. -/
def ambiguityNamespaces (pods : List Pod) : List String :=
  pods.map Pod.Namespace

/-- Message of the `len(podList.Items) > 1` branch:
`Found %v fission installs, set FISSION_NAMESPACE to one of: %v` with the
namespaces joined by a space. -/
def ambiguityMsg (pods : List Pod) : String :=
  "Found " ++ toString pods.length ++
    " fission installs, set FISSION_NAMESPACE to one of: " ++
    String.intercalate " " (ambiguityNamespaces pods)

/-- Resolution part of `runPortForward`: config/client construction, the pod
list with its zero/many checks, the service list in the single pod's
namespace, and the target-port extraction loop
`for _, servicePort := range service.Spec.Ports { targetPort = servicePort.TargetPort.String() }`,
which starts from the empty string and overwrites on every iteration. -/
def resolve (api : ClusterAPI) (labelSelector ns0 : String) :
    Outcome ResolvedTarget :=
  match api.buildConfigErr with
  | some e => .fatal ("Failed to connect to Kubernetes: " ++ e)
  | none =>
  match api.newClientErr with
  | some e => .fatal ("Failed to connect to Kubernetes: " ++ e)
  | none =>
  match api.podListErr with
  | some _ => .fatal "Error getting controller pod for port-forwarding"
  | none =>
  match listPods api (effNs ns0) with
  | [] => .fatal "Error getting controller pod for port-forwarding"
  | [pod] =>
    match api.svcListErr with
    | some e =>
      .fatal ("Error getting " ++ labelSelector ++ " service :" ++ e)
    | none =>
    match listServices api pod.Namespace with
    | [] => .fatal ("Service " ++ labelSelector ++ " not found")
    | service :: _ =>
      .ok ⟨pod.Name, pod.Namespace,
        service.Ports.foldl (fun _ servicePort => servicePort.TargetPort) ""⟩
  | p1 :: p2 :: rest => .fatal (ambiguityMsg (p1 :: p2 :: rest))

/-- Port mapping string handed to the forwarder:
`portCombo := localPort + ":" + targetPort`. -/
def portCombo (localPort targetPort : String) : String :=
  localPort ++ ":" ++ targetPort

/-- Whole of `runPortForward` up to starting the forwarder: on success it
yields the resolved target together with the `ports` slice
`[]string{localPort + ":" + targetPort}` passed to `portforward.New`; a
`fatal` outcome means the process dies and no tunnel is attempted.  The
actual stream transport (`spdy`, `fw.ForwardPorts()`) is external. -/
def runPortForward (api : ClusterAPI) (labelSelector localPort ns0 : String) :
    Outcome (ResolvedTarget × List String) :=
  match resolve api labelSelector ns0 with
  | .fatal m => .fatal m
  | .ok t => .ok (t, [portCombo localPort t.targetPort])

/-- Oracle for the OS socket layer seen by `Setup` and `findFreePort`.
`listen` is the outcome of `net.Listen("tcp", ":0")` (on success, the
OS-assigned port read back from the listener's address); `closeErr` is the
outcome of `listener.Close()`.  `connectFree k` and `connectListening k` say
whether the k-th `net.DialTimeout` attempt of the corresponding polling loop
returns a live connection. -/
structure NetEnv where
  listen : Except String Nat
  closeErr : Option String
  connectFree : Nat → Bool
  connectListening : Nat → Bool

/-- Embedding of `findFreePort`: bind a listener to port 0, read back the
assigned port, close the listener, and return the port rendered in decimal
(`strconv.Itoa`); an error of the bind or of the close is returned as-is. -/
def findFreePort (env : NetEnv) : Except String String :=
  match env.listen with
  | .error e => .error e
  | .ok port =>
    match env.closeErr with
    | some e => .error e
    | none => .ok (toString port)

/-- Timeout in milliseconds of each `net.DialTimeout("tcp", ..., time.Millisecond)`
polling attempt. -/
def dialTimeoutMillis : Nat := 1

/-- Sleep in milliseconds between polling attempts:
`time.Sleep(time.Millisecond * 50)`. -/
def sleepMs : Nat := 50

/-- Generic polling loop of `Setup`.  `exitCond k` is the exit test of the
k-th attempt (for the port-free loop, that the dial failed; for the
port-listening loop, that the dial succeeded).  `fuel` bounds how many
attempts the model unrolls; the real loop has no bound, which the theorems
express by quantifying over all fuels.  On exit it returns the index of the
exiting attempt and the total milliseconds slept (one `sleepMs` sleep after
every non-exiting attempt). -/
def waitLoop (exitCond : Nat → Bool) : Nat → Nat → Nat → Option (Nat × Nat)
  | 0, _, _ => none
  | fuel + 1, k, slept =>
    if exitCond k then some (k, slept)
    else waitLoop exitCond fuel (k + 1) (slept + sleepMs)

/-- First polling loop of `Setup` (wait for the local port to be free): it
repeats while a dial succeeds and exits on the first failed dial. -/
def waitUntilPortFree (connect : Nat → Bool) (fuel : Nat) :
    Option (Nat × Nat) :=
  waitLoop (fun k => !connect k) fuel 0 0

/-- Second polling loop of `Setup` (wait for the forward to listen): it
repeats while a dial fails and exits on the first successful dial. -/
def waitUntilPortListening (connect : Nat → Bool) (fuel : Nat) :
    Option (Nat × Nat) :=
  waitLoop (fun k => connect k) fuel 0 0

/-- Result of `Setup`: `fatal` models `log.Fatal`, `blocked` models a polling
loop that has not exited within the unrolled attempts (the real code keeps
blocking), `ok` carries the returned local-port string. -/
inductive SetupResult where
  | fatal : String → SetupResult
  | blocked : SetupResult
  | ok : String → SetupResult
deriving DecidableEq, Repr

/-- Embedding of `Setup`: find a free local port (fatal on error), poll until
the port is free, start the background goroutine running `runPortForward`
(its effect on the local socket is observed only through
`env.connectListening`, exactly as the code observes it by dialing), poll
until the port is listening, then return the local-port string. -/
def Setup (env : NetEnv) (api : ClusterAPI) (labelSelector ns0 : String)
    (fuel : Nat) : SetupResult :=
  match findFreePort env with
  | .error e => .fatal ("Error finding unused port :" ++ e)
  | .ok localPort =>
    match waitUntilPortFree env.connectFree fuel with
    | none => .blocked
    | some _ =>
      match waitUntilPortListening env.connectListening fuel with
      | none => .blocked
      | some _ => .ok localPort

/-- Target port effectively kept by the extraction loop: the last declared
port's target port, or the empty string when the service declares no ports. -/
def lastTargetPort (service : Service) : String :=
  match service.Ports.getLast? with
  | none => ""
  | some servicePort => servicePort.TargetPort

/-- Concrete pod used to evaluate the model on closed inputs. -/
def podW : Pod := ⟨"controller", "ns1"⟩

/-- Concrete one-port service in the pod's namespace. -/
def svcW : Service := ⟨"ns1", [⟨"8080"⟩]⟩

/-- Concrete healthy cluster: one matching pod, one matching service. -/
def apiW : ClusterAPI :=
  ⟨[podW], [svcW], fun _ => true, fun _ => true, none, none, none, none⟩

/-- Cluster in which the pod list succeeds but matches nothing. -/
def apiNoPods : ClusterAPI :=
  ⟨[], [svcW], fun _ => true, fun _ => true, none, none, none, none⟩

/-- Cluster with two matching pods living in the same namespace. -/
def apiDupPods : ClusterAPI :=
  ⟨[⟨"ctrl-a", "ns1"⟩, ⟨"ctrl-b", "ns1"⟩], [svcW],
    fun _ => true, fun _ => true, none, none, none, none⟩

/-- Service matching the selector but living in another namespace. -/
def svcDecoy : Service := ⟨"ns2", [⟨"9999"⟩]⟩

/-- Cluster where a matching service exists outside the pod's namespace. -/
def apiDecoy : ClusterAPI :=
  ⟨[podW], [svcDecoy, svcW], fun _ => true, fun _ => true,
    none, none, none, none⟩

/-- Service declaring two ports with distinct target ports. -/
def svcTwoPorts : Service := ⟨"ns1", [⟨"8080"⟩, ⟨"9090"⟩]⟩

/-- Cluster whose single matching service declares two ports. -/
def apiTwoPorts : ClusterAPI :=
  ⟨[podW], [svcTwoPorts], fun _ => true, fun _ => true,
    none, none, none, none⟩

/-- Service declaring no ports at all. -/
def svcNoPorts : Service := ⟨"ns1", []⟩

/-- Cluster whose single matching service declares no ports. -/
def apiNoPorts : ClusterAPI :=
  ⟨[podW], [svcNoPorts], fun _ => true, fun _ => true,
    none, none, none, none⟩

/-- Socket environment where everything succeeds and the forward is
immediately observed listening. -/
def envW : NetEnv := ⟨.ok 8080, none, fun _ => false, fun _ => true⟩

/-- Socket environment where the bind succeeds and the close fails. -/
def envCloseFail : NetEnv :=
  ⟨.ok 8080, some "close failed", fun _ => false, fun _ => true⟩

/-- Connect oracle that succeeds on attempts 0 and 1 and fails from 2 on. -/
def connectW : Nat → Bool := fun k => decide (k < 2)

/-! Helper lemmas shared by the claim theorems. -/

theorem waitLoop_some_spec (c : Nat → Bool) :
    ∀ fuel k slept r s, waitLoop c fuel k slept = some (r, s) →
      c r = true ∧ (∀ j, k ≤ j → j < r → c j = false) ∧ k ≤ r ∧
        s = slept + (r - k) * sleepMs := by
  intro fuel
  induction fuel with
  | zero => intro k slept r s h; simp [waitLoop] at h
  | succ n ih =>
    intro k slept r s h
    by_cases hc : c k
    · simp [waitLoop, hc] at h
      obtain ⟨hr, hs⟩ := h
      subst hr; subst hs
      exact ⟨hc, fun j hkj hjr => absurd hkj (by omega), le_refl _, by simp⟩
    · simp only [waitLoop, hc, if_neg, ite_false] at h
      obtain ⟨h1, h2, h3, h4⟩ := ih (k + 1) (slept + sleepMs) r s h
      refine ⟨h1, ?_, by omega, ?_⟩
      · intro j hkj hjr
        rcases Nat.eq_or_lt_of_le hkj with he | hl
        · subst he; simpa using hc
        · exact h2 j hl hjr
      · simp only [sleepMs] at h4 ⊢
        omega


theorem waitLoop_none_of_never (c : Nat → Bool) (h : ∀ j, c j = false) :
    ∀ fuel k slept, waitLoop c fuel k slept = none := by
  intro fuel
  induction fuel with
  | zero => intro k slept; rfl
  | succ n ih =>
    intro k slept
    simp [waitLoop, h k]
    exact ih _ _

theorem string_length_zero_iff (s : String) : s.length = 0 ↔ s = "" := by
  cases s with
  | mk data => cases data <;> simp [String.length, String.ext_iff]

theorem effNs_eq (ns0 : String) : effNs ns0 = ns0 := by
  rcases eq_or_ne ns0 "" with h | h
  · subst h; rfl
  · simp [effNs, namespaceAll, string_length_zero_iff, h]

theorem foldl_overwrite_eq_getLast (l : List ServicePort) (a : String) :
    l.foldl (fun _ servicePort => servicePort.TargetPort) a =
      match l.getLast? with
      | none => a
      | some servicePort => servicePort.TargetPort := by
  induction l using List.reverseRecOn with
  | nil => rfl
  | append_singleton xs x _ => simp [List.foldl_append, List.getLast?_concat]

theorem foldl_overwrite_eq_lastTargetPort (service : Service) :
    service.Ports.foldl (fun _ servicePort => servicePort.TargetPort) "" =
      lastTargetPort service := by
  rw [foldl_overwrite_eq_getLast]
  rfl

/-- C6: for every successful call, the free-port allocator binds a listening
socket to port 0, reads back the OS-assigned port number, closes the socket,
and returns that number as a decimal string — the returned port is exactly
the one the listener was bound to. -/
theorem findFreePort_returns_bound_port (env : NetEnv) (p : Nat)
    (h1 : env.listen = .ok p) (h2 : env.closeErr = none) :
    findFreePort env = .ok (toString p) := by
  simp [findFreePort, h1, h2]

/-- Witness for C6 at a concrete environment whose bind yields port 8080. -/
theorem findFreePort_returns_bound_port_witness :
    findFreePort envW = .ok (toString 8080) :=
  findFreePort_returns_bound_port envW 8080 rfl rfl

/-- C7 counterexample: `findFreePort` can return an error although the bind
succeeded — a failing `listener.Close()` is also propagated as an error, so
an error is not returned exactly when the bind fails. -/
theorem findFreePort_error_without_bind_failure :
    envCloseFail.listen = Except.ok 8080 ∧
    findFreePort envCloseFail = Except.error "close failed" :=
  ⟨rfl, rfl⟩

/-- C7 amended: the free-port allocator returns an error exactly when the
bind fails or when closing the listener fails; in every other case it
returns the bound port with no error, and it never retries. -/
theorem findFreePort_error_iff (env : NetEnv) :
    ((∃ e, findFreePort env = .error e) ↔
      (∃ e, env.listen = .error e) ∨ (∃ e, env.closeErr = some e)) ∧
    (∀ p, env.listen = .ok p → env.closeErr = none →
      findFreePort env = .ok (toString p)) := by
  constructor
  · rcases h : env.listen with e | p <;>
      rcases h2 : env.closeErr with _ | e2 <;>
        simp [findFreePort, h, h2]
  · intro p h1 h2
    simp [findFreePort, h1, h2]

/-- Witness for C7's amended theorem at a concrete environment. -/
theorem findFreePort_error_iff_witness :
    findFreePort envW = .ok (toString 8080) :=
  (findFreePort_error_iff envW).2 8080 rfl rfl

/-- C8: both readiness-polling loops attempt a short-timeout TCP connect with
a fixed 50ms sleep between attempts and no upper bound on attempts; the
port-free loop repeats while a connection succeeds and exits on the first
failed connect, the port-listening loop repeats while a connection fails and
exits on the first successful connect. -/
theorem polling_loops_first_transition (connect : Nat → Bool)
    (fuel r s : Nat) :
    sleepMs = 50 ∧ dialTimeoutMillis = 1 ∧
    (waitUntilPortFree connect fuel = some (r, s) →
      connect r = false ∧ (∀ j, j < r → connect j = true) ∧
        s = r * sleepMs) ∧
    (waitUntilPortListening connect fuel = some (r, s) →
      connect r = true ∧ (∀ j, j < r → connect j = false) ∧
        s = r * sleepMs) ∧
    ((∀ j, connect j = true) → waitUntilPortFree connect fuel = none) ∧
    ((∀ j, connect j = false) →
      waitUntilPortListening connect fuel = none) := by
  refine ⟨rfl, rfl, ?_, ?_, ?_, ?_⟩
  · intro h
    obtain ⟨h1, h2, _, h4⟩ := waitLoop_some_spec _ fuel 0 0 r s h
    exact ⟨by simpa using h1,
      fun j hj => by simpa using h2 j (Nat.zero_le _) hj,
      by simpa using h4⟩
  · intro h
    obtain ⟨h1, h2, _, h4⟩ := waitLoop_some_spec _ fuel 0 0 r s h
    exact ⟨h1, fun j hj => h2 j (Nat.zero_le _) hj, by simpa using h4⟩
  · intro h
    exact waitLoop_none_of_never _ (fun j => by simp [h j]) fuel 0 0
  · intro h
    exact waitLoop_none_of_never _ (fun j => h j) fuel 0 0

/-- Witness for C8: with a connect oracle that succeeds on attempts 0 and 1
and fails from attempt 2 on, the port-free loop exits at attempt 2 having
slept twice. -/
theorem polling_loops_first_transition_witness :
    connectW 2 = false ∧ (100 : Nat) = 2 * sleepMs :=
  ⟨((polling_loops_first_transition connectW 6 2 100).2.2.1 (by decide)).1,
   ((polling_loops_first_transition connectW 6 2 100).2.2.1 (by decide)).2.2⟩

/-- C3: for every successful call, `Setup` returns the allocated local port
as a string, and it returns only after a TCP connection to that local port
has succeeded (the background tunnel's listening socket is confirmed live);
until then `Setup` blocks. -/
theorem Setup_returns_port_after_listening (env : NetEnv) (api : ClusterAPI)
    (labelSelector ns0 : String) (fuel : Nat) (s : String) :
    (Setup env api labelSelector ns0 fuel = .ok s →
      findFreePort env = .ok s ∧
        (∃ p, env.listen = .ok p ∧ s = toString p) ∧
        ∃ k, env.connectListening k = true) ∧
    ((∀ k, env.connectListening k = false) →
      Setup env api labelSelector ns0 fuel ≠ .ok s) := by
  constructor
  · intro h
    rcases hf : findFreePort env with e | localPort
    · simp [Setup, hf] at h
    · rcases hw : waitUntilPortFree env.connectFree fuel with _ | pr
      · simp [Setup, hf, hw] at h
      · rcases hl : waitUntilPortListening env.connectListening fuel
          with _ | ⟨r, sl⟩
        · simp [Setup, hf, hw, hl] at h
        · simp [Setup, hf, hw, hl] at h
          subst h
          obtain ⟨h1, _, _, _⟩ :=
            waitLoop_some_spec _ fuel 0 0 r sl hl
          refine ⟨rfl, ?_, ⟨r, h1⟩⟩
          rcases he : env.listen with e | p
          · simp [findFreePort, he] at hf
          · rcases hc : env.closeErr with _ | e2
            · simp [findFreePort, he, hc] at hf
              exact ⟨p, rfl, hf.symm⟩
            · simp [findFreePort, he, hc] at hf
  · intro hnever h
    rcases hf : findFreePort env with e | localPort
    · simp [Setup, hf] at h
    · rcases hw : waitUntilPortFree env.connectFree fuel with _ | pr
      · simp [Setup, hf, hw] at h
      · have : waitUntilPortListening env.connectListening fuel = none :=
          waitLoop_none_of_never _ (fun j => hnever j) fuel 0 0
        simp [Setup, hf, hw, this] at h

/-- Witness for C3 at a concrete environment where the forward listens from
the first polling attempt on. -/
theorem Setup_returns_port_after_listening_witness :
    findFreePort envW = Except.ok "8080" :=
  ((Setup_returns_port_after_listening envW apiW "application=ctrl" ""
    1 "8080").1 (by decide)).1

/-- C1: resolution fails fatally (no target, no tunnel) when the pod list
call errors or returns zero pods, fails fatally with a message enumerating
the namespaces of all matching pods when more than one pod matches, and a
resolved target is produced only when exactly one pod matches. -/
theorem runPortForward_requires_exactly_one_pod (api : ClusterAPI)
    (labelSelector localPort ns0 : String)
    (hb : api.buildConfigErr = none) (hn : api.newClientErr = none) :
    ((api.podListErr ≠ none ∨ listPods api (effNs ns0) = []) →
      runPortForward api labelSelector localPort ns0 =
        .fatal "Error getting controller pod for port-forwarding") ∧
    (api.podListErr = none → 1 < (listPods api (effNs ns0)).length →
      runPortForward api labelSelector localPort ns0 =
        .fatal (ambiguityMsg (listPods api (effNs ns0)))) ∧
    (∀ t ports,
      runPortForward api labelSelector localPort ns0 = .ok (t, ports) →
      api.podListErr = none ∧ (listPods api (effNs ns0)).length = 1) := by
  refine ⟨?_, ?_, ?_⟩
  · rintro (hp | hp)
    · rcases h : api.podListErr with _ | e
      · exact absurd h hp
      · simp [runPortForward, resolve, hb, hn, h]
    · rcases h : api.podListErr with _ | e
      · simp [runPortForward, resolve, hb, hn, h, hp]
      · simp [runPortForward, resolve, hb, hn, h]
  · intro hperr hlen
    rcases h : listPods api (effNs ns0) with _ | ⟨p1, _ | ⟨p2, rest⟩⟩
    · rw [h] at hlen; simp at hlen
    · rw [h] at hlen; simp at hlen
    · simp [runPortForward, resolve, hb, hn, hperr, h]
  · intro t ports hok
    rcases h : api.podListErr with _ | e
    · rcases hl : listPods api (effNs ns0) with _ | ⟨p1, _ | ⟨p2, rest⟩⟩
      · simp [runPortForward, resolve, hb, hn, h, hl] at hok
      · exact ⟨rfl, by rw [List.length_singleton]⟩
      · simp [runPortForward, resolve, hb, hn, h, hl] at hok
    · simp [runPortForward, resolve, hb, hn, h] at hok

/-- Witness for C1: a selector matching no pod is fatal before any tunnel. -/
theorem runPortForward_requires_exactly_one_pod_witness :
    runPortForward apiNoPods "application=ctrl" "8000" "" =
      .fatal "Error getting controller pod for port-forwarding" :=
  (runPortForward_requires_exactly_one_pod apiNoPods "application=ctrl"
    "8000" "" rfl rfl).1 (Or.inr (by decide))

/-- C10: the fatal ambiguity message's namespace list has exactly one entry
per matching pod, in pod-list order; a namespace shared by several matching
pods appears once per pod (duplicates are not removed). -/
theorem ambiguity_message_one_entry_per_pod (api : ClusterAPI)
    (labelSelector ns0 : String)
    (hb : api.buildConfigErr = none) (hn : api.newClientErr = none)
    (hperr : api.podListErr = none)
    (hlen : 1 < (listPods api (effNs ns0)).length) :
    resolve api labelSelector ns0 =
      .fatal (ambiguityMsg (listPods api (effNs ns0))) ∧
    (ambiguityNamespaces (listPods api (effNs ns0))).length =
      (listPods api (effNs ns0)).length ∧
    ∀ i (hi : i < (listPods api (effNs ns0)).length),
      (ambiguityNamespaces (listPods api (effNs ns0)))[i]? =
        some ((listPods api (effNs ns0)).get ⟨i, hi⟩).Namespace := by
  refine ⟨?_, by simp [ambiguityNamespaces], ?_⟩
  · rcases h : listPods api (effNs ns0) with _ | ⟨p1, _ | ⟨p2, rest⟩⟩
    · rw [h] at hlen; simp at hlen
    · rw [h] at hlen; simp at hlen
    · simp [resolve, hb, hn, hperr, h]
  · intro i hi
    simp [ambiguityNamespaces, List.getElem?_map,
      List.getElem?_eq_getElem hi]

/-- Witness for C10: two matching pods in the same namespace produce a
message listing that namespace twice. -/
theorem ambiguity_message_one_entry_per_pod_witness :
    resolve apiDupPods "application=ctrl" "" =
      .fatal (ambiguityMsg (listPods apiDupPods (effNs ""))) ∧
    (ambiguityNamespaces (listPods apiDupPods (effNs ""))).length =
      (listPods apiDupPods (effNs "")).length ∧
    ambiguityMsg (listPods apiDupPods (effNs "")) =
      "Found 2 fission installs, set FISSION_NAMESPACE to one of: ns1 ns1" :=
  ⟨(ambiguity_message_one_entry_per_pod apiDupPods "application=ctrl" ""
      rfl rfl rfl (by decide)).1,
   (ambiguity_message_one_entry_per_pod apiDupPods "application=ctrl" ""
      rfl rfl rfl (by decide)).2.1,
   by decide⟩

/-- C5: with an empty namespace string the pod lookup lists pods matching the
label selector across all namespaces; with a non-empty namespace it lists
only pods of that namespace. -/
theorem pods_listed_across_namespaces (api : ClusterAPI) (ns0 : String)
    (p : Pod) :
    (ns0 = "" → (p ∈ listPods api (effNs ns0) ↔
      p ∈ api.pods ∧ api.selPod p = true)) ∧
    (ns0 ≠ "" → (p ∈ listPods api (effNs ns0) ↔
      p ∈ api.pods ∧ p.Namespace = ns0 ∧ api.selPod p = true)) := by
  rw [effNs_eq]
  constructor
  · intro h
    subst h
    simp [listPods, inNamespace, namespaceAll, List.mem_filter]
  · intro h
    simp [listPods, inNamespace, namespaceAll, List.mem_filter, h, and_assoc]

/-- Witness for C5 at the empty namespace with a concrete cluster. -/
theorem pods_listed_across_namespaces_witness :
    podW ∈ listPods apiW (effNs "") ↔
      podW ∈ apiW.pods ∧ apiW.selPod podW = true :=
  (pods_listed_across_namespaces apiW "" podW).1 rfl

/-- C4: once exactly one pod matched, services are listed with the same
label selector in that pod's namespace (not the caller-supplied namespace),
and resolution fails fatally when the service list call errors or returns
zero services. -/
theorem services_listed_in_pod_namespace (api : ClusterAPI)
    (labelSelector ns0 : String) (pod : Pod)
    (hb : api.buildConfigErr = none) (hn : api.newClientErr = none)
    (hperr : api.podListErr = none)
    (hpods : listPods api (effNs ns0) = [pod]) :
    (∀ e, api.svcListErr = some e →
      resolve api labelSelector ns0 =
        .fatal ("Error getting " ++ labelSelector ++ " service :" ++ e)) ∧
    (api.svcListErr = none → listServices api pod.Namespace = [] →
      resolve api labelSelector ns0 =
        .fatal ("Service " ++ labelSelector ++ " not found")) ∧
    (∀ service rest, api.svcListErr = none →
      listServices api pod.Namespace = service :: rest →
      resolve api labelSelector ns0 =
        .ok ⟨pod.Name, pod.Namespace, service.Ports.foldl
          (fun _ servicePort => servicePort.TargetPort) ""⟩) := by
  refine ⟨?_, ?_, ?_⟩
  · intro e he
    simp [resolve, hb, hn, hperr, hpods, he]
  · intro he hsvc
    simp [resolve, hb, hn, hperr, hpods, he, hsvc]
  · intro service rest he hsvc
    simp [resolve, hb, hn, hperr, hpods, he, hsvc]

/-- Witness for C4: the caller passes the all-namespaces selector, a decoy
matching service lives in ns2, yet the target port comes from the service of
the pod's namespace ns1. -/
theorem services_listed_in_pod_namespace_witness :
    resolve apiDecoy "application=ctrl" "" =
      .ok ⟨podW.Name, podW.Namespace, svcW.Ports.foldl
        (fun _ servicePort => servicePort.TargetPort) ""⟩ :=
  (services_listed_in_pod_namespace apiDecoy "application=ctrl" "" podW
    rfl rfl rfl (by decide)).2.2 svcW [] rfl (by decide)

/-- C2 counterexample: with exactly one matching pod and one matching service
declaring two ports (target ports 8080 then 9090), the destination port used
for the tunnel is 9090 — the last declared port — not the first declared
port's target-port value 8080. -/
theorem runPortForward_not_first_declared_port :
    runPortForward apiTwoPorts "application=ctrl" "8000" "ns1" =
      .ok (⟨"controller", "ns1", "9090"⟩, ["8000:9090"]) ∧
    svcTwoPorts.Ports.map ServicePort.TargetPort = ["8080", "9090"] ∧
    ("9090" : String) ≠ "8080" := by
  refine ⟨by decide, by decide, by decide⟩

/-- C2 amended: for every successful resolution, the destination port equals
the first matching service's last declared port's target-port value (the
empty string when it declares no ports). -/
theorem resolve_targetPort_is_last_declared (api : ClusterAPI)
    (labelSelector ns0 : String) (t : ResolvedTarget)
    (service : Service) (rest : List Service)
    (hok : resolve api labelSelector ns0 = .ok t)
    (hsvc : listServices api t.podNameSpace = service :: rest) :
    t.targetPort = lastTargetPort service := by
  rcases hb : api.buildConfigErr with _ | e <;>
    rcases hn : api.newClientErr with _ | e2 <;>
      rcases hperr : api.podListErr with _ | e3 <;>
        simp [resolve, hb, hn, hperr] at hok
  rcases hl : listPods api (effNs ns0) with _ | ⟨p1, _ | ⟨p2, rest2⟩⟩ <;>
    rw [hl] at hok <;> simp at hok
  rcases hse : api.svcListErr with _ | e4 <;> rw [hse] at hok <;>
    simp at hok
  rcases hs : listServices api p1.Namespace with _ | ⟨s0, rest0⟩ <;>
    rw [hs] at hok <;> simp at hok
  have ht : t = ⟨p1.Name, p1.Namespace, s0.Ports.foldl
      (fun _ servicePort => servicePort.TargetPort) ""⟩ := hok.symm
  subst ht
  simp only at hsvc
  rw [hs] at hsvc
  have hss : s0 = service := by
    injection hsvc
  subst hss
  exact foldl_overwrite_eq_lastTargetPort s0

/-- Witness for C2's amended theorem at the two-port cluster. -/
theorem resolve_targetPort_is_last_declared_witness :
    (ResolvedTarget.mk "controller" "ns1" "9090").targetPort =
      lastTargetPort svcTwoPorts :=
  resolve_targetPort_is_last_declared apiTwoPorts "application=ctrl" "ns1"
    ⟨"controller", "ns1", "9090"⟩ svcTwoPorts [] (by decide) (by decide)

/-- C9: when the single matched service declares zero ports, no error is
raised: the target port remains the empty string and the tunnel is attempted
with the mapping localPort-colon-nothing. -/
theorem empty_ports_not_rejected (api : ClusterAPI)
    (labelSelector localPort ns0 : String) (pod : Pod) (service : Service)
    (rest : List Service)
    (hb : api.buildConfigErr = none) (hn : api.newClientErr = none)
    (hperr : api.podListErr = none) (hse : api.svcListErr = none)
    (hpods : listPods api (effNs ns0) = [pod])
    (hsvcs : listServices api pod.Namespace = service :: rest)
    (hports : service.Ports = []) :
    runPortForward api labelSelector localPort ns0 =
      .ok (⟨pod.Name, pod.Namespace, ""⟩, [localPort ++ ":"]) := by
  simp [runPortForward, resolve, portCombo, hb, hn, hperr, hse, hpods,
    hsvcs, hports, String.append_empty]

/-- Witness for C9 at a concrete cluster whose service has no ports. -/
theorem empty_ports_not_rejected_witness :
    runPortForward apiNoPorts "application=ctrl" "8000" "" =
      .ok (⟨podW.Name, podW.Namespace, ""⟩, ["8000" ++ ":"]) :=
  empty_ports_not_rejected apiNoPorts "application=ctrl" "8000" "" podW
    svcNoPorts [] rfl rfl rfl rfl (by decide) (by decide) rfl

end PortForward
